import Mathlib

/-!
Verification of the irrigation control system (src/irrigation.py and the
Django controller src/app/irrigation_project/irrigation/controller.py,
which contain the same pipeline).

Embedding conventions:
* Python floats are modelled as exact rationals where only field
  arithmetic and comparisons occur (sensor values, the decision gate, the
  Kc table), and as real numbers in the evapotranspiration chain, where
  transcendental functions appear.
* Python integer floor division (the operator used in get_crop_week) is
  Int.fdiv.
* The two wall-clock reads (datetime.datetime.now() inside get_crop_week
  and inside calculate_eto_penman_monteith) are embedded as explicit
  inputs: days_difference = (now - planting_date).days for get_crop_week,
  and day_of_year = now.timetuple().tm_yday for the ETo engine.
* Python math.acos raises ValueError outside [-1, 1]; this fallibility is
  modelled with Option, the ETo engine returning none exactly when the
  sunset-hour-angle argument is out of the acos domain.
-/

/-- Sensor reading record, the keys of the dict returned by
read_sensor_data, in source order. -/
structure SensorData where
  TC_min : ℚ
  HUM_min : ℚ
  SOILTC_min : ℚ
  SOIL_B_min : ℚ
  SOIL_C_min : ℚ
  PRES_min : ℚ
  TC_max : ℚ
  HUM_max : ℚ
  SOILTC_max : ℚ
  ANE_max : ℚ
  PLV2_max : ℚ
  SOIL_B_max : ℚ
  SOIL_C_max : ℚ
  LDR_max : ℚ
  LW_max : ℚ
  LUX_max : ℚ
  PRES_max : ℚ
  deriving DecidableEq

/-- Sample data returned by read_sensor_data in the source. -/
def read_sensor_data : SensorData where
  TC_min := 18.5
  HUM_min := 40
  SOILTC_min := 16.2
  SOIL_B_min := 35
  SOIL_C_min := 33
  PRES_min := 1009.2
  TC_max := 28.3
  HUM_max := 65
  SOILTC_max := 22.1
  ANE_max := 12.5
  PLV2_max := 0
  SOIL_B_max := 42
  SOIL_C_max := 40
  LDR_max := 975
  LW_max := 875
  LUX_max := 65000
  PRES_max := 1014.6

/-- Constant MOISTURE_THRESHOLD_MIN = 40 from the source. -/
def MOISTURE_THRESHOLD_MIN : ℚ := 40

/-- Constant MOISTURE_THRESHOLD_MAX = 60 from the source (unused by the
pipeline, kept for completeness). -/
def MOISTURE_THRESHOLD_MAX : ℚ := 60

/-- The dictionary KC_VALUES = {1: 0.3, ..., 12: 0.8}; keys are ints, so
lookup is a partial map from the integers. -/
def KC_VALUES (week : ℤ) : Option ℚ :=
  if week = 1 then some 0.3
  else if week = 2 then some 0.4
  else if week = 3 then some 0.5
  else if week = 4 then some 0.7
  else if week = 5 then some 0.8
  else if week = 6 then some 0.9
  else if week = 7 then some 1.0
  else if week = 8 then some 1.1
  else if week = 9 then some 1.1
  else if week = 10 then some 1.0
  else if week = 11 then some 0.9
  else if week = 12 then some 0.8
  else none

/-- max(KC_VALUES.keys()) in the source. -/
def MAX_KC_WEEK : ℤ := 12

/-- Python expression KC_VALUES.get(crop_week, 1.0): dictionary lookup
with default 1.0. -/
def kc_of_week (week : ℤ) : ℚ := (KC_VALUES week).getD 1

/-- Function get_crop_week from the source. The wall-clock read is the
explicit input days_difference = (current_date - planting_date).days;
Python floor division is Int.fdiv. The source computes
min(days_difference // 7 + 1, max(KC_VALUES.keys())). -/
def get_crop_week (days_difference : ℤ) : ℤ :=
  min (days_difference.fdiv 7 + 1) MAX_KC_WEEK

/-- The average of the two soil moisture probes computed inside
is_irrigation_required. -/
def avg_soil_moisture_min (sd : SensorData) : ℚ :=
  (sd.SOIL_B_min + sd.SOIL_C_min) / 2

/-- Function is_irrigation_required from the source: the average of the
two soil probes is strictly below MOISTURE_THRESHOLD_MIN. -/
def is_irrigation_required (sd : SensorData) : Bool :=
  decide (avg_soil_moisture_min sd < MOISTURE_THRESHOLD_MIN)

/-- A reading whose probe average is exactly the threshold (40). -/
def readingAtThreshold : SensorData :=
  { read_sensor_data with SOIL_B_min := 45, SOIL_C_min := 35 }

/-- A reading agreeing with read_sensor_data on the two probe fields but
differing in every other field. -/
def readingAltered : SensorData where
  TC_min := 30.5
  HUM_min := 10
  SOILTC_min := 26.2
  SOIL_B_min := 35
  SOIL_C_min := 33
  PRES_min := 909.2
  TC_max := 38.3
  HUM_max := 95
  SOILTC_max := 32.1
  ANE_max := 2.5
  PLV2_max := 14
  SOIL_B_max := 52
  SOIL_C_max := 50
  LDR_max := 575
  LW_max := 675
  LUX_max := 25000
  PRES_max := 914.6

/-- Claim C5: is_irrigation_required returns true iff the probe average
(soil_b + soil_c) / 2 is strictly below the moisture threshold; in
particular a reading whose average equals the threshold exactly yields
false. -/
theorem is_irrigation_required_iff :
    (∀ sd : SensorData, is_irrigation_required sd = true ↔
      (sd.SOIL_B_min + sd.SOIL_C_min) / 2 < MOISTURE_THRESHOLD_MIN) ∧
    (∀ sd : SensorData, (sd.SOIL_B_min + sd.SOIL_C_min) / 2 = MOISTURE_THRESHOLD_MIN →
      is_irrigation_required sd = false) := by
  constructor
  · intro sd
    simp [is_irrigation_required, avg_soil_moisture_min]
  · intro sd h
    simp [is_irrigation_required, avg_soil_moisture_min, h]

/-- Witness for C5: a concrete reading with probe average exactly 40 is
judged not to need irrigation. -/
theorem is_irrigation_required_iff_witness :
    (readingAtThreshold.SOIL_B_min + readingAtThreshold.SOIL_C_min) / 2 =
      MOISTURE_THRESHOLD_MIN ∧
    is_irrigation_required readingAtThreshold = false :=
  ⟨by norm_num [readingAtThreshold, read_sensor_data, MOISTURE_THRESHOLD_MIN],
    is_irrigation_required_iff.2 readingAtThreshold
      (by norm_num [readingAtThreshold, read_sensor_data, MOISTURE_THRESHOLD_MIN])⟩

/-- Claim C10: the irrigation decision depends only on the two
soil-moisture probe fields; readings agreeing on SOIL_B_min and
SOIL_C_min get the same decision. -/
theorem gate_depends_only_on_soil (sd₁ sd₂ : SensorData)
    (hb : sd₁.SOIL_B_min = sd₂.SOIL_B_min)
    (hc : sd₁.SOIL_C_min = sd₂.SOIL_C_min) :
    is_irrigation_required sd₁ = is_irrigation_required sd₂ := by
  simp [is_irrigation_required, avg_soil_moisture_min, hb, hc]

/-- Witness for C10: the sample reading and a reading altered in every
non-probe field receive the same decision. -/
theorem gate_depends_only_on_soil_witness :
    read_sensor_data.TC_min ≠ readingAltered.TC_min ∧
    read_sensor_data.PLV2_max ≠ readingAltered.PLV2_max ∧
    is_irrigation_required read_sensor_data = is_irrigation_required readingAltered :=
  ⟨by norm_num [read_sensor_data, readingAltered],
    by norm_num [read_sensor_data, readingAltered],
    gate_depends_only_on_soil read_sensor_data readingAltered rfl rfl⟩

/-- Counterexample for C3: for a current date one week before planting
(days_difference = -7) the code returns week 0, below the claimed lower
clamp of 1. -/
theorem get_crop_week_below_one :
    get_crop_week (-7) = 0 ∧ ¬ (1 ≤ get_crop_week (-7)) := by decide

/-- Claim C3 (amended): get_crop_week equals min(floor(days/7) + 1, 12)
with no lower clamp; whenever the current date is not before the planting
date (days_difference nonnegative) the result lies in [1, 12]. -/
theorem get_crop_week_clamped_of_nonneg (days : ℤ) (h : 0 ≤ days) :
    get_crop_week days = min (days.fdiv 7 + 1) MAX_KC_WEEK ∧
    1 ≤ get_crop_week days ∧ get_crop_week days ≤ 12 := by
  refine ⟨rfl, ?_, ?_⟩
  · have h7 : (0 : ℤ) ≤ 7 := by norm_num
    have hd : 0 ≤ days.fdiv 7 := Int.fdiv_nonneg h h7
    exact le_min (by linarith) (by norm_num [MAX_KC_WEEK])
  · exact min_le_right _ _

/-- Witness for C3 (amended): at 10 days after planting the week is 2,
inside [1, 12]. -/
theorem get_crop_week_clamped_of_nonneg_witness :
    (0 : ℤ) ≤ 10 ∧
    (get_crop_week 10 = min ((10 : ℤ).fdiv 7 + 1) MAX_KC_WEEK ∧
      1 ≤ get_crop_week 10 ∧ get_crop_week 10 ≤ 12) :=
  ⟨by decide, get_crop_week_clamped_of_nonneg 10 (by decide)⟩

/-- Counterexample for C1: the crop-week derivation reads the wall clock
(datetime.datetime.now() in get_crop_week); with the sensor inputs
unchanged, evaluating at planting day and 84 days later yields different
crop weeks, hence different reports whenever the open-gate branch runs. -/
theorem get_crop_week_clock_dependent :
    get_crop_week 0 = 1 ∧ get_crop_week 84 = 12 ∧
      get_crop_week 0 ≠ get_crop_week 84 := by decide

/-- Constant FIELD_AREA = 1000 square metres. -/
noncomputable def FIELD_AREA : ℝ := 1000

/-- Constant MOTOR_FLOW_RATE = 1000 litres per minute. -/
noncomputable def MOTOR_FLOW_RATE : ℝ := 1000

/-- Constant IRRIGATION_EFFICIENCY = 0.85. -/
noncomputable def IRRIGATION_EFFICIENCY : ℝ := 0.85

/-- Function calculate_etc from the source: eto * KC_VALUES.get(crop_week, 1.0). -/
noncomputable def calculate_etc (eto : ℝ) (crop_week : ℤ) : ℝ :=
  eto * (kc_of_week crop_week : ℝ)

/-- Function calculate_irrigation_requirements from the source:
effective_rainfall = rainfall * 0.8 and the net requirement
max(0, (etc - effective_rainfall) / IRRIGATION_EFFICIENCY). -/
noncomputable def calculate_irrigation_requirements (etc rainfall : ℝ) : ℝ :=
  let effective_rainfall := rainfall * 0.8
  max 0 ((etc - effective_rainfall) / IRRIGATION_EFFICIENCY)

/-- Function calculate_water_volume from the source: irrigation_req * FIELD_AREA. -/
noncomputable def calculate_water_volume (irrigation_req : ℝ) : ℝ :=
  irrigation_req * FIELD_AREA

/-- Function calculate_pump_time from the source: water_volume / MOTOR_FLOW_RATE. -/
noncomputable def calculate_pump_time (water_volume : ℝ) : ℝ :=
  water_volume / MOTOR_FLOW_RATE

/-- Counterexample for C2: the table lookup in calculate_etc defaults to
Kc = 1.0 for any untabulated week, so week 13 does not reuse the
max-key Kc of 0.8: at eto = 1 the results differ. -/
theorem calculate_etc_no_clamp_at_13 :
    calculate_etc 1 13 ≠ calculate_etc 1 12 := by
  norm_num [calculate_etc, kc_of_week, KC_VALUES]

/-- Claim C2 (amended): for every week strictly above the table maximum
(12), calculate_etc uses the default Kc = 1.0, i.e.
calculate_etc eto week = eto * 1; the clamp to the maximum key is
performed upstream by get_crop_week, whose result never exceeds 12, so
the pipeline never feeds calculate_etc a week above 12. -/
theorem calculate_etc_above_max (eto : ℝ) (week : ℤ) (h : MAX_KC_WEEK < week) :
    calculate_etc eto week = eto * 1 ∧
    ∀ days : ℤ, get_crop_week days ≤ MAX_KC_WEEK := by
  have hmax : (12 : ℤ) < week := h
  have hnone : KC_VALUES week = none := by
    unfold KC_VALUES
    repeat rw [if_neg (by omega)]
  constructor
  · unfold calculate_etc kc_of_week
    rw [hnone]
    norm_num
  · intro days
    exact min_le_right _ _

/-- Witness for C2 (amended): at eto = 2 and week = 13 the result is
2 * 1 = 2, and the upstream crop week is always at most 12. -/
theorem calculate_etc_above_max_witness :
    MAX_KC_WEEK < (13 : ℤ) ∧
    (calculate_etc 2 13 = 2 * 1 ∧ ∀ days : ℤ, get_crop_week days ≤ MAX_KC_WEEK) :=
  ⟨by decide, calculate_etc_above_max 2 13 (by decide)⟩

/-- Claim C8: when the effective rainfall rainfall * 0.8 is at least etc,
the irrigation requirement is 0, and the chained water volume and pump
time are both 0. -/
theorem rainfall_saturation_zero (etc rainfall : ℝ)
    (h : etc ≤ rainfall * 0.8) :
    calculate_irrigation_requirements etc rainfall = 0 ∧
    calculate_water_volume (calculate_irrigation_requirements etc rainfall) = 0 ∧
    calculate_pump_time
      (calculate_water_volume (calculate_irrigation_requirements etc rainfall)) = 0 := by
  have hreq : calculate_irrigation_requirements etc rainfall = 0 := by
    unfold calculate_irrigation_requirements IRRIGATION_EFFICIENCY
    have hnum : etc - rainfall * 0.8 ≤ 0 := by linarith
    have hq : (etc - rainfall * 0.8) / (0.85 : ℝ) ≤ 0 :=
      div_nonpos_of_nonpos_of_nonneg hnum (by norm_num)
    simpa using max_eq_left hq
  refine ⟨hreq, ?_, ?_⟩
  · rw [hreq]
    unfold calculate_water_volume
    exact zero_mul _
  · rw [hreq]
    unfold calculate_water_volume calculate_pump_time
    rw [zero_mul]
    exact zero_div _

/-- Witness for C8: with etc = 1 mm and rainfall = 2 mm the effective
rainfall 1.6 mm covers the demand and all three outputs are 0. -/
theorem rainfall_saturation_zero_witness :
    (1 : ℝ) ≤ 2 * 0.8 ∧
    (calculate_irrigation_requirements 1 2 = 0 ∧
      calculate_water_volume (calculate_irrigation_requirements 1 2) = 0 ∧
      calculate_pump_time
        (calculate_water_volume (calculate_irrigation_requirements 1 2)) = 0) :=
  ⟨by norm_num, rainfall_saturation_zero 1 2 (by norm_num)⟩

/-- Claim C9: calculate_water_volume is exactly multiplication by the
field area (1 mm over 1 square metre is 1 L, no extra factor), and
calculate_pump_time is exactly division by the pump flow rate; chained,
the pump time is volume over flow. -/
theorem water_volume_unit_identity :
    (∀ r : ℝ, calculate_water_volume r = r * FIELD_AREA) ∧
    (∀ v : ℝ, calculate_pump_time v = v / MOTOR_FLOW_RATE) ∧
    (∀ r : ℝ, calculate_pump_time (calculate_water_volume r) =
      r * FIELD_AREA / MOTOR_FLOW_RATE) :=
  ⟨fun _ => rfl, fun _ => rfl, fun _ => rfl⟩

/-- Python math.acos: defined on [-1, 1], raises ValueError (a domain
error) outside, modelled as none. -/
noncomputable def acos_checked (x : ℝ) : Option ℝ :=
  if x < -1 ∨ 1 < x then none else some (Real.arccos x)

/-- The argument passed to math.acos in calculate_eto_penman_monteith:
-tan(latitude * pi / 180) * tan(solar_declination), where
solar_declination = 0.409 * sin(2 * pi * day_of_year / 365 - 1.39). -/
noncomputable def sunset_cos_arg (latitude : ℝ) (day_of_year : ℕ) : ℝ :=
  -Real.tan (latitude * Real.pi / 180) *
    Real.tan (0.409 * Real.sin (2 * Real.pi * day_of_year / 365 - 1.39))

/-- Function calculate_eto_penman_monteith with the site constants
(altitude = 100, latitude = 40 in the source) and the wall-clock-derived
day_of_year made explicit parameters; the fixed-constant wrapper follows.
The intermediate quantities appear in source order; the only fallible
step, math.acos on the sunset-hour-angle argument, is hoisted into the
Option so that the function returns none exactly when Python raises. -/
noncomputable def calculate_eto_core (sd : SensorData)
    (altitude latitude : ℝ) (day_of_year : ℕ) : Option ℝ :=
  (acos_checked (sunset_cos_arg latitude day_of_year)).map fun sunset_hour_angle =>
    let temp_avg := ((sd.TC_min : ℝ) + (sd.TC_max : ℝ)) / 2
    let temp_min := (sd.TC_min : ℝ)
    let temp_max := (sd.TC_max : ℝ)
    let hum_avg := ((sd.HUM_min : ℝ) + (sd.HUM_max : ℝ)) / 2
    let wind_speed := (sd.ANE_max : ℝ) * 1000 / 3600
    let solar_radiation := (sd.LUX_max : ℝ) * 0.0079
    let atm_pressure := 101.3 * (((293 - 0.0065 * altitude) / 293) ^ (5.26 : ℝ))
    let gamma := 0.000665 * atm_pressure
    let sat_vp_tmin := 0.6108 * Real.exp ((17.27 * temp_min) / (temp_min + 237.3))
    let sat_vp_tmax := 0.6108 * Real.exp ((17.27 * temp_max) / (temp_max + 237.3))
    let sat_vp := (sat_vp_tmin + sat_vp_tmax) / 2
    let actual_vp := (sat_vp * hum_avg) / 100
    let vpd := sat_vp - actual_vp
    let delta := (4098 * (0.6108 * Real.exp ((17.27 * temp_avg) / (temp_avg + 237.3)))) /
      ((temp_avg + 237.3) ^ 2)
    let solar_declination := 0.409 * Real.sin (2 * Real.pi * day_of_year / 365 - 1.39)
    let inv_dist := 1 + 0.033 * Real.cos (2 * Real.pi * day_of_year / 365)
    let ra := 24 * 60 / Real.pi * 0.082 * inv_dist *
      (sunset_hour_angle * Real.sin (latitude * Real.pi / 180) * Real.sin solar_declination +
        Real.cos (latitude * Real.pi / 180) * Real.cos solar_declination *
          Real.sin sunset_hour_angle)
    let rso := (0.75 + 2e-5 * altitude) * ra
    let rs := solar_radiation
    let rns := (1 - 0.23) * rs
    let tmin_k := temp_min + 273.16
    let tmax_k := temp_max + 273.16
    let rnl := 4.903e-9 * ((tmin_k ^ 4 + tmax_k ^ 4) / 2) *
      (0.34 - 0.14 * Real.sqrt actual_vp) * (1.35 * rs / rso - 0.35)
    let rn := rns - rnl
    let g : ℝ := 0
    let numerator := 0.408 * delta * (rn - g) +
      gamma * (900 / (temp_avg + 273)) * wind_speed * vpd
    let denominator := delta + gamma * (1 + 0.34 * wind_speed)
    let eto := numerator / denominator
    max 0 eto

/-- Function calculate_eto_penman_monteith as in the source, with its
hardcoded altitude = 100 and latitude = 40 and the wall-clock-derived
day_of_year as explicit input. -/
noncomputable def calculate_eto_penman_monteith (sd : SensorData)
    (day_of_year : ℕ) : Option ℝ :=
  calculate_eto_core sd 100 40 day_of_year

/-- The recommendation report assembled by run_irrigation_system in the
controller (rounding of displayed values is presentation and omitted;
all chained values are the unrounded ones). The gate-closed constructor
carries no ETo-derived fields. -/
inductive Report where
  | notRequired (avg_soil_moisture : ℚ)
  | required (avg_soil_moisture : ℚ) (eto : ℝ) (crop_week : ℤ) (kc : ℚ)
      (etc : ℝ) (rainfall : ℚ) (irrigation_requirement : ℝ)
      (water_volume : ℝ) (pump_time : ℝ)

/-- The eto field of a report, when present. -/
noncomputable def Report.etoVal : Report → Option ℝ
  | .notRequired _ => none
  | .required _ eto _ _ _ _ _ _ _ => some eto

/-- The evaluation pipeline of run_irrigation_system (and of main in
irrigation.py): gate check, then, only if irrigation is needed, ETo,
crop week, Kc, ETc, rainfall, irrigation requirement, volume and pump
time. The two wall-clock reads are the explicit inputs days_difference
and day_of_year. -/
noncomputable def evaluate (sd : SensorData) (days_difference : ℤ)
    (day_of_year : ℕ) : Option Report :=
  if is_irrigation_required sd then
    (calculate_eto_penman_monteith sd day_of_year).map fun eto =>
      let crop_week := get_crop_week days_difference
      let kc := kc_of_week crop_week
      let etc := calculate_etc eto crop_week
      let rainfall := sd.PLV2_max
      let irrigation_req := calculate_irrigation_requirements etc (rainfall : ℝ)
      let water_volume := calculate_water_volume irrigation_req
      let pump_time := calculate_pump_time water_volume
      Report.required (avg_soil_moisture_min sd) eto crop_week kc etc rainfall
        irrigation_req water_volume pump_time
  else
    some (Report.notRequired (avg_soil_moisture_min sd))

/-- Claim C7: when the probe average is at or above the threshold the
evaluation returns, without failing, a gate-closed report that carries no
ETo-derived field; the ETo computation is not attempted (the result does
not depend on the ETo engine or on either clock input). -/
theorem gate_closed_no_eto (sd : SensorData) (dd : ℤ) (dy : ℕ)
    (h : MOISTURE_THRESHOLD_MIN ≤ (sd.SOIL_B_min + sd.SOIL_C_min) / 2) :
    evaluate sd dd dy =
      some (Report.notRequired ((sd.SOIL_B_min + sd.SOIL_C_min) / 2)) := by
  have hg : is_irrigation_required sd = false := by
    simp [is_irrigation_required, avg_soil_moisture_min, not_lt.2 h]
  simp [evaluate, hg, avg_soil_moisture_min]

/-- Witness for C7: a reading at the exact threshold produces the
gate-closed report and nothing else. -/
theorem gate_closed_no_eto_witness :
    MOISTURE_THRESHOLD_MIN ≤
      (readingAtThreshold.SOIL_B_min + readingAtThreshold.SOIL_C_min) / 2 ∧
    evaluate readingAtThreshold 10 100 =
      some (Report.notRequired
        ((readingAtThreshold.SOIL_B_min + readingAtThreshold.SOIL_C_min) / 2)) :=
  ⟨by norm_num [readingAtThreshold, read_sensor_data, MOISTURE_THRESHOLD_MIN],
    gate_closed_no_eto readingAtThreshold 10 100
      (by norm_num [readingAtThreshold, read_sensor_data, MOISTURE_THRESHOLD_MIN])⟩

/-- Claim C6: the ETo result is clamped to be nonnegative, so whatever
value the engine returns is at least 0; consequently the eto field of
any report produced by the evaluation is at least 0. -/
theorem eto_nonneg :
    (∀ (sd : SensorData) (alt lat : ℝ) (dy : ℕ),
      0 ≤ (calculate_eto_core sd alt lat dy).getD 0) ∧
    (∀ (sd : SensorData) (dd : ℤ) (dy : ℕ),
      0 ≤ ((evaluate sd dd dy).bind Report.etoVal).getD 0) := by
  have h1 : ∀ (sd : SensorData) (alt lat : ℝ) (dy : ℕ),
      0 ≤ (calculate_eto_core sd alt lat dy).getD 0 := by
    intro sd alt lat dy
    unfold calculate_eto_core
    cases h : acos_checked (sunset_cos_arg lat dy) with
    | none => simp [h]
    | some a =>
      simp only [h, Option.map_some, Option.getD_some]
      exact le_max_left 0 _
  refine ⟨h1, ?_⟩
  intro sd dd dy
  unfold evaluate
  cases hg : is_irrigation_required sd with
  | false => simp [Report.etoVal]
  | true =>
    simp only [if_true]
    unfold calculate_eto_penman_monteith
    cases h : calculate_eto_core sd 100 40 dy with
    | none => simp
    | some v =>
      have hv := h1 sd 100 40 dy
      rw [h] at hv
      simpa [Report.etoVal] using hv

/-- At latitude 89 degrees and day of year 172 (close to the summer
solstice) the sunset-hour-angle cosine argument is far below -1: the
declination is close to 0.409 rad and tan(89 * pi / 180) exceeds 57. -/
lemma sunset_cos_arg_at_89_172 : sunset_cos_arg 89 172 < -1 := by
  have hπl : (3.141592 : ℝ) < Real.pi := Real.pi_gt_d6
  have hπu : Real.pi < 3.141593 := Real.pi_lt_d6
  have hy0 : (0 : ℝ) < Real.pi / 180 := by positivity
  have hyu : Real.pi / 180 < 0.0174533 := by linarith
  have hy2 : Real.pi / 180 < Real.pi / 2 := by linarith [Real.pi_pos]
  have htany_pos : 0 < Real.tan (Real.pi / 180) :=
    Real.tan_pos_of_pos_of_lt_pi_div_two hy0 hy2
  have hcosy : (0.999 : ℝ) < Real.cos (Real.pi / 180) := by
    have hb := Real.one_sub_sq_div_two_le_cos (x := Real.pi / 180)
    nlinarith [hb, hy0, hyu]
  have hsiny : Real.sin (Real.pi / 180) < Real.pi / 180 := Real.sin_lt hy0
  have htany : Real.tan (Real.pi / 180) < 0.0175 := by
    rw [Real.tan_eq_sin_div_cos,
      div_lt_iff₀ (by linarith : (0 : ℝ) < Real.cos (Real.pi / 180))]
    linarith
  have hsθl : (-0.0001 : ℝ) < Real.pi / 2 - (2 * Real.pi * 172 / 365 - 1.39) := by
    linarith
  have hsθu : Real.pi / 2 - (2 * Real.pi * 172 / 365 - 1.39) < 0.0001 := by
    linarith
  have hsinθ : (0.999 : ℝ) < Real.sin (2 * Real.pi * 172 / 365 - 1.39) := by
    have hb := Real.one_sub_sq_div_two_le_cos
      (x := Real.pi / 2 - (2 * Real.pi * 172 / 365 - 1.39))
    rw [Real.cos_pi_div_two_sub] at hb
    nlinarith [hb, hsθl, hsθu]
  have hsinθ_le : Real.sin (2 * Real.pi * 172 / 365 - 1.39) ≤ 1 := Real.sin_le_one _
  have hδ0 : (0.4085 : ℝ) < 0.409 * Real.sin (2 * Real.pi * 172 / 365 - 1.39) := by
    linarith
  have hδu : 0.409 * Real.sin (2 * Real.pi * 172 / 365 - 1.39) ≤ 0.409 := by
    linarith
  have hδπ : 0.409 * Real.sin (2 * Real.pi * 172 / 365 - 1.39) < Real.pi / 2 := by
    linarith
  have htanδ : (0.4085 : ℝ) <
      Real.tan (0.409 * Real.sin (2 * Real.pi * 172 / 365 - 1.39)) :=
    lt_trans hδ0 (Real.lt_tan (by linarith) hδπ)
  have h89 : (89 : ℝ) * Real.pi / 180 = Real.pi / 2 - Real.pi / 180 := by ring
  have htan89 : Real.tan ((89 : ℝ) * Real.pi / 180) =
      (Real.tan (Real.pi / 180))⁻¹ := by
    rw [h89, Real.tan_pi_div_two_sub]
  have hprod : 1 < (Real.tan (Real.pi / 180))⁻¹ *
      Real.tan (0.409 * Real.sin (2 * Real.pi * 172 / 365 - 1.39)) := by
    have h1 : Real.tan (Real.pi / 180) <
        Real.tan (0.409 * Real.sin (2 * Real.pi * 172 / 365 - 1.39)) := by linarith
    have h2 : (0 : ℝ) < (Real.tan (Real.pi / 180))⁻¹ := inv_pos.2 htany_pos
    calc (1 : ℝ) = (Real.tan (Real.pi / 180))⁻¹ * Real.tan (Real.pi / 180) :=
        (inv_mul_cancel₀ (ne_of_gt htany_pos)).symm
      _ < _ := mul_lt_mul_of_pos_left h1 h2
  unfold sunset_cos_arg
  push_cast
  rw [htan89, neg_mul]
  linarith

/-- Claim C4: when the latitude and day-of-year make the
sunset-hour-angle argument leave the acos domain [-1, 1], the ETo engine
fails fast (math.acos raises ValueError, modelled as none) instead of
returning a numeric result. -/
theorem eto_domain_error (sd : SensorData) (alt lat : ℝ) (dy : ℕ)
    (h : sunset_cos_arg lat dy < -1 ∨ 1 < sunset_cos_arg lat dy) :
    calculate_eto_core sd alt lat dy = none := by
  unfold calculate_eto_core acos_checked
  rw [if_pos h]
  rfl

/-- Witness for C4: at latitude 89 and day of year 172 the argument is
below -1 and the engine returns the error value. -/
theorem eto_domain_error_witness :
    (sunset_cos_arg 89 172 < -1 ∨ 1 < sunset_cos_arg 89 172) ∧
    calculate_eto_core read_sensor_data 100 89 172 = none :=
  ⟨Or.inl sunset_cos_arg_at_89_172,
    eto_domain_error read_sensor_data 100 89 172 (Or.inl sunset_cos_arg_at_89_172)⟩

/-- Claim C1 (amended): with the two wall-clock reads exposed as explicit
inputs, the evaluation is a pure function, so two calls with identical
sensor reading and identical clock-derived inputs yield identical
reports; the source does read the wall clock inside get_crop_week and
calculate_eto_penman_monteith, so only calls at equal clock values are
guaranteed to agree. -/
theorem evaluate_deterministic (sd₁ sd₂ : SensorData) (dd₁ dd₂ : ℤ)
    (dy₁ dy₂ : ℕ) (hsd : sd₁ = sd₂) (hdd : dd₁ = dd₂) (hdy : dy₁ = dy₂) :
    evaluate sd₁ dd₁ dy₁ = evaluate sd₂ dd₂ dy₂ := by
  rw [hsd, hdd, hdy]

/-- Witness for C1 (amended): two calls on the sample reading with equal
clock inputs agree. -/
theorem evaluate_deterministic_witness :
    read_sensor_data = read_sensor_data ∧
    evaluate read_sensor_data 10 100 = evaluate read_sensor_data 10 100 :=
  ⟨rfl, evaluate_deterministic read_sensor_data read_sensor_data 10 10 100 100
    rfl rfl rfl⟩
